import Mathlib

/-!
Shallow embedding of `src/biofam/build_model/init_model.py` (class `initModel`)
together with theorems settling the specification claims about it.

Numeric values are modelled as exact rationals; the floating NaN marker is
`none` in `NF := Option ℚ`.  A 2-d numpy array is a rectangular list of rows.
-/

/-- A Python float value: `none` models NaN, `some q` a finite value. -/
abbrev NF := Option ℚ

/-- Addition propagating NaN. -/
def fadd : NF → NF → NF
  | some a, some b => some (a + b)
  | _, _ => none

/-- Subtraction propagating NaN. -/
def fsub : NF → NF → NF
  | some a, some b => some (a - b)
  | _, _ => none

/-- Multiplication propagating NaN. -/
def fmul : NF → NF → NF
  | some a, some b => some (a * b)
  | _, _ => none

/-- Division propagating NaN.  Division by zero is modelled as NaN; the
claims are evaluated away from zero divisors. -/
def fdiv : NF → NF → NF
  | some a, some b => if b = 0 then none else some (a / b)
  | _, _ => none

/-- Binary maximum propagating NaN, as numpy amax does when NaN is present. -/
def fmax : NF → NF → NF
  | some a, some b => some (max a b)
  | _, _ => none

/-- The numpy step `x[s.isnan(x)] = 0` applied to one entry. -/
def zeroIfNan (x : NF) : NF := some (x.getD 0)

/-- A 2-d ndarray: a list of rows. -/
abbrev Arr := List (List NF)

/-- Entry of a row, NaN out of range (shapes are checked separately). -/
def fget (l : List NF) (j : ℕ) : NF := (l[j]?).getD none

/-- Entry `(i, j)` of an array. -/
def getE (a : Arr) (i j : ℕ) : NF := fget (a[i]?.getD []) j

/-- Number of columns of a rectangular array (length of its first row). -/
def cols (a : Arr) : ℕ := (a.headD []).length

/-- The numpy `shape` of a rectangular array. -/
def shapeOf (a : Arr) : ℕ × ℕ := (a.length, cols a)

/-- The array is rectangular with `r` rows and `c` columns. -/
def wellFormed (r c : ℕ) (a : Arr) : Prop :=
  a.length = r ∧ ∀ row ∈ a, row.length = c

instance (r c : ℕ) (a : Arr) : Decidable (wellFormed r c a) := by
  unfold wellFormed; infer_instance

/-- `s.ones((r, c)) * v`: the constant `r × c` array. -/
def constArr (r c : ℕ) (v : NF) : Arr := List.replicate r (List.replicate c v)

/-- Column `j` of an array. -/
def col (a : Arr) (j : ℕ) : List NF := a.map (fun row => fget row j)

/-- numpy transpose of a rectangular array. -/
def transposeArr (a : Arr) : Arr := (List.range (cols a)).map (fun j => col a j)

/-- `s.nanmean` along a column: mean of the non-NaN entries, NaN if none. -/
def nanmean (xs : List NF) : NF :=
  let vs := xs.filterMap id
  if vs.length = 0 then none else some (vs.sum / (vs.length : ℚ))

/-- `s.nanvar` along a column (population variance of the non-NaN entries). -/
def nanvar (xs : List NF) : NF :=
  match nanmean xs with
  | none => none
  | some m =>
      let vs := xs.filterMap id
      some ((vs.map (fun v => (v - m) ^ 2)).sum / (vs.length : ℚ))

/-- Exact-rational square root, used to model the numerical square root inside
`s.nanstd`; it agrees with the float square root on perfect squares, where the
concrete claims are evaluated. -/
def ratSqrt (q : ℚ) : ℚ := (Int.sqrt q.num : ℚ) / (Nat.sqrt q.den : ℚ)

/-- `s.nanstd` along a column. -/
def nanstd (xs : List NF) : NF := (nanvar xs).map ratSqrt

/-- Lines 105-106 of the source: center and unit-variance-scale the
scale-flagged columns (per-column nanmean/nanstd), leave the rest raw. -/
def scaleCols (flags : List Bool) (a : Arr) : Arr :=
  a.map (fun row => (List.range row.length).map (fun j =>
    if flags.getD j false then
      fdiv (fsub (fget row j) (nanmean (col a j))) (nanstd (col a j))
    else fget row j))

/-- Line 109 of the source: `covariates[s.isnan(covariates)] = 0`. -/
def zeroNaN (a : Arr) : Arr := a.map (fun row => row.map zeroIfNan)

/-- `q[:, 0..cols c - 1] = c` (the source indexes with `range(covariates.shape[1])`). -/
def spliceCols (q c : Arr) : Arr :=
  (List.range q.length).map (fun i => (List.range (cols q)).map (fun j =>
    if j < cols c then getE c i j else getE q i j))

/-- `a[:, 0..kc-1] = s.nan`. -/
def nanCols (a : Arr) (kc : ℕ) : Arr :=
  a.map (fun row => (List.range row.length).map (fun j =>
    if j < kc then none else fget row j))

/-- Boolean-mask selection along a row, `row[mask]`. -/
def selectMask (row : List NF) (mask : List Bool) : List NF :=
  (row.zip mask).filterMap (fun p => if p.2 then some p.1 else none)

/-- Boolean-mask column selection, `a[:, mask]`. -/
def maskCols (a : Arr) (mask : List Bool) : Arr :=
  a.map (fun row => selectMask row mask)

/-- Maximum of a list of values (`s.amax` of a nonempty column). -/
def listMax : List NF → NF
  | [] => none
  | x :: xs => xs.foldl fmax x

/-- `s.amax(a, axis=0)`: per-column maxima. -/
def colMaxes (a : Arr) : List NF :=
  (List.range (cols a)).map (fun j => listMax (col a j))

/-- Lexicographic comparison of character lists by code point. -/
def charListLt : List Char → List Char → Bool
  | [], [] => false
  | [], _ :: _ => true
  | _ :: _, [] => false
  | c :: cs, d :: ds =>
      if c.toNat < d.toNat then true
      else if d.toNat < c.toNat then false
      else charListLt cs ds

/-- The strict order on strings used by `np.unique` when sorting labels. -/
def strLtB (a b : String) : Bool := charListLt a.data b.data

/-- The strict order on naturals, as a Bool. -/
def natLtB (a b : ℕ) : Bool := a < b

/-- Insert into a sorted duplicate-free list, keeping it sorted and
duplicate-free; `ltb` is the strict order. -/
def insertUniq {α : Type} [DecidableEq α] (ltb : α → α → Bool) (x : α) :
    List α → List α
  | [] => [x]
  | y :: ys =>
      if x = y then y :: ys
      else if ltb x y then x :: y :: ys
      else y :: insertUniq ltb x ys

/-- The sorted list of distinct elements, as `np.unique` returns. -/
def uniqueSorted {α : Type} [DecidableEq α] (ltb : α → α → Bool) (l : List α) :
    List α :=
  l.foldr (insertUniq ltb) []

/-- Index of the first occurrence of `x` (the `return_inverse` lookup). -/
def findIdx0 {α : Type} [DecidableEq α] (x : α) : List α → ℕ
  | [] => 0
  | y :: ys => if x = y then 0 else findIdx0 x ys + 1

/-- Synchronous Python failures raised by the initializer paths. -/
inductive PyErr where
  | assertError
  | typeError
  | indexError
  | valueError
  | unboundLocal
  | exitCall
  deriving DecidableEq

/-- One element of the prior-covariance list `pcov`: either the sparse
`s.sparse.eye(n) * q` matrix, or the NaN marker written over it. -/
inductive PCovE where
  | eye (n : ℕ) (q : ℚ)
  | nanMark
  deriving DecidableEq

/-- The `pcov` argument: an int/float scalar, or an already-built list. -/
inductive PCovArg where
  | scalar (q : ℚ)
  | lst (l : List PCovE)

/-- A Python value passed for `qmean` (and for the spike-and-slab mean
arguments): a string mode, an ndarray, an int/float, `None`, or a value of
any other type. -/
inductive QArg where
  | str (s : String)
  | arr (a : Arr)
  | num (q : ℚ)
  | noneA
  | other

/-- The value held in `qmean` after the mode dispatch: an unrecognized
string is kept unchanged, `None` is kept as `None`. -/
inductive QMeanVal where
  | arr (a : Arr)
  | str (s : String)
  | noneV
  deriving DecidableEq

/-- The `qE` argument of the mixed Theta initializer. -/
inductive ThetaQE where
  | num (q : ℚ)
  | arr (a : Arr)
  | noneQ

/-- The node records registered by the initializer.  Node classes are
external collaborators; they are modelled as opaque records holding exactly
the constructor arguments the initializer passes (spec section 6). -/
inductive Node where
  | zNode (dim : ℕ × ℕ) (pmean : Arr) (pcov : List PCovE) (qmean : QMeanVal)
      (qvar : Arr) (qE qE2 : Option Arr) (idx_covariates : Option (List ℕ))
      (precompute_pcovinv : Bool)
  | wNode (dim : ℕ × ℕ) (pmean : Arr) (pcov : List PCovE) (qmean : QMeanVal)
      (qvar : Arr) (qE qE2 : Option Arr) (idx_covariates : Option (List ℕ))
      (precompute_pcovinv : Bool)
  | szNode (dim : ℕ × ℕ) (ptheta pmean_T0 pvar_T0 pmean_T1 pvar_T1 : ℚ)
      (qtheta qmean_T0 qvar_T0 : ℚ) (qmean_T1 : Arr) (qvar_T1 : ℚ)
      (qET qEZ_T0 qEZ_T1 : Option Arr)
  | swNode (dim : ℕ × ℕ) (ptheta pmean_S0 pvar_S0 pmean_S1 pvar_S1 : ℚ)
      (qtheta qmean_S0 qvar_S0 : ℚ) (qmean_S1 : Arr) (qvar_S1 : ℚ)
      (qES qEW_S0 qEW_S1 : Option Arr)
  | alphaZk (dim : ℕ) (pa pb qa qb : ℚ) (qE qlnE : Option Arr)
  | alphaZgroups (dim : ℕ × ℕ) (pa pb qa qb : ℚ) (groups : List ℕ)
      (groups_dic : List String) (qE qlnE : Option Arr)
  | sigmaGrid (dim : ℕ) (X : Arr) (n_diag : ℕ)
  | blockSigmaGrid (dim : ℕ) (X : Arr) (clust : List ℕ) (n_diag : ℕ)
  | constantN (dim : ℕ × ℕ) (value : List NF)
  | tauJaakkola (dim : ℕ × ℕ) (value : ℚ)
  | tauN (dim : ℕ) (pa pb qa qb : ℚ) (qE : Option Arr)
  | tauD (dim : ℕ) (pa pb qa qb : ℚ) (qE : Option Arr)
  | yNode (dim : ℕ × ℕ) (value : Arr) (transpose_noise : Bool)
  | poissonPseudoY (dim : ℕ × ℕ) (obs : Arr) (transpose_noise : Bool)
  | bernoulliJaakkola (dim : ℕ × ℕ) (obs : Arr) (transpose_noise : Bool)
  | thetaZk (dim : ℕ) (pa pb qa qb : ℚ) (qE : Option (List NF))
  | thetaZconst (dim : ℕ × ℕ) (value : Arr) (n_cells : ℚ)
  | mixedThetaZ (learn : Node) (const : Node) (idx : List ℕ)
  | multiview (m : ℕ) (nodes : List (Option Node))

/-- The state of an `initModel` object: the dimensions, data and likelihoods
fixed by `__init__`, the node mapping, and the extra attributes some
initializers set on `self`. -/
structure InitState where
  N : ℕ
  K : ℕ
  M : ℕ
  D : List ℕ
  lik : List String
  data : List Arr
  nodes : List (String × Node)
  SigmaAttr : Option Node := none
  YAttr : Option Node := none
  ThetaAttr : Option Node := none

/-- Python dict assignment `self.nodes[k] = v`: the new binding replaces any
previous binding of `k`. -/
def setNode (m : List (String × Node)) (k : String) (v : Node) :
    List (String × Node) :=
  (k, v) :: m.filter (fun p => p.1 != k)

/-- Modelled from the spec: sklearn PCA is an excluded external collaborator
(spec section 1).  `pcaFitT k X` models `PCA(n_components=k).fit(X)` followed
by `components_.T`: defined exactly when `k` is at most
`min(n_samples, n_features)` (otherwise sklearn raises), and returning a
matrix of shape `(n_features, k)`; entry values are unspecified by the spec
and fixed as 0 here (no claim depends on them). -/
def pcaFitT (k : ℕ) (X : Arr) : Except PyErr Arr :=
  if k ≤ min X.length (cols X) then .ok (constArr (cols X) k (some 0))
  else .error .valueError

/-- `s.concatenate(l, axis=0)`: stacks the rows; raises unless the list is
nonempty and all arrays have the same number of columns. -/
def concatRows (l : List Arr) : Except PyErr Arr :=
  match l with
  | [] => .error .valueError
  | a :: rest =>
      if rest.all (fun b => cols b == cols a) then .ok ((a :: rest).flatten)
      else .error .valueError

/-- `pcov[idx_covariates] = s.nan` with `idx_covariates = range(kc)`. -/
def setNanPrefix (l : List PCovE) (kc : ℕ) : List PCovE :=
  (List.range l.length).map (fun j => if j < kc then PCovE.nanMark else l.getD j PCovE.nanMark)

/-- The `qmean` mode dispatch of `initZ` (source lines 67-94).  Note the
string branch has no else: an unrecognized string is kept unchanged. -/
def mkQMeanZ (st : InitState) (rand : ℕ → ℕ → Arr) : QArg → Except PyErr QMeanVal
  | .str s =>
      if s = "random" then .ok (.arr (rand st.N st.K))
      else if s = "orthogonal" then
        match pcaFitT st.K (transposeArr (rand st.N 9999)) with
        | .ok a => .ok (.arr a)
        | .error e => .error e
      else if s = "pca" then
        match concatRows st.data with
        | .error e => .error e
        | .ok xc =>
            match pcaFitT st.K (transposeArr xc) with
            | .ok a => .ok (.arr a)
            | .error e => .error e
      else .ok (.str s)
  | .arr a =>
      if shapeOf a = (st.N, st.K) then .ok (.arr a) else .error .assertError
  | .num q => .ok (.arr (constArr st.N st.K (some q)))
  | .noneA => .ok .noneV
  | .other => .error .exitCall

/-- `initModel.initZ` (source lines 34-122).  `rand` supplies the draws of
`stats.norm.rvs` at the requested shape.  The returned array is the final
value of the caller's `covariates` argument, which the source mutates in
place (lines 105-109). -/
def initZ (st : InitState) (rand : ℕ → ℕ → Arr) (pmean : ℚ) (pcov : PCovArg)
    (qmean : QArg) (qvar : ℚ) (qE qE2 : Option Arr) (covariates : Option Arr)
    (scale_covariates : Option (List Bool)) (precompute_pcovinv : Bool) :
    Except PyErr (InitState × Option Arr) :=
  let pmeanM := constArr st.N st.K (some pmean)
  let pcovL := match pcov with
    | .scalar q => List.replicate st.K (PCovE.eye st.N q)
    | .lst l => l
  let qvarM := constArr st.N st.K (some qvar)
  match mkQMeanZ st rand qmean with
  | .error e => .error e
  | .ok qm =>
    match covariates with
    | none =>
        let nd := Node.zNode (st.N, st.K) pmeanM pcovL qm qvarM qE qE2 none
          precompute_pcovinv
        .ok ({ st with nodes := setNode st.nodes "Z" nd }, none)
    | some cv =>
      match scale_covariates with
      | none => .error .assertError
      | some flags =>
        let kc := cols cv
        let cvz := zeroNaN (scaleCols flags cv)
        match qm with
        | .arr qa =>
          if kc ≤ cols qa ∧ cvz.length = qa.length then
            -- line 113 `pcov[idx_covariates] = s.nan` indexes the Python
            -- list `pcov` with the ndarray `s.array(range(kc))`: only a
            -- size-1 index array converts via its scalar index (writing
            -- slot 0); any other size raises TypeError, and writing into
            -- an empty list raises IndexError.
            if kc = 1 then
              if pcovL.length = 0 then .error .indexError
              else
                let nd := Node.zNode (st.N, st.K) pmeanM
                  (setNanPrefix pcovL kc) (.arr (spliceCols qa cvz))
                  (nanCols qvarM kc) qE qE2 (some (List.range kc))
                  precompute_pcovinv
                .ok ({ st with nodes := setNode st.nodes "Z" nd }, some cvz)
            else .error .typeError
          else .error .indexError
        | _ => .error .typeError

/-- The per-view `qmean` dispatch of `initW` (source lines 233-265).  An
unrecognized string leaves `qmean_m` unassigned, so its later use in the
`W_Node` call raises UnboundLocalError. -/
def mkQMeanW (st : InitState) (rand : ℕ → ℕ → Arr) (dm : ℕ) :
    QArg → Except PyErr QMeanVal
  | .str s =>
      if s = "random" then .ok (.arr (rand dm st.K))
      else if s = "orthogonal" then
        match pcaFitT st.K (transposeArr (rand dm 9999)) with
        | .ok a => .ok (.arr a)
        | .error e => .error e
      else if s = "pca" then
        match concatRows st.data with
        | .error e => .error e
        | .ok xc =>
            match pcaFitT st.K (transposeArr xc) with
            | .ok a => .ok (.arr a)
            | .error e => .error e
      else .error .unboundLocal
  | .arr a =>
      if shapeOf a = (dm, st.K) then .ok (.arr a) else .error .assertError
  | .num q => .ok (.arr (constArr dm st.K (some q)))
  | .noneA => .ok .noneV
  | .other => .error .exitCall

/-- The per-view loop of the multi-view initializers: run the body on each
index in order, stopping at the first raised error (as the Python `for` loop
does). -/
def mapExcept {HH : Type} (f : ℕ → Except PyErr HH) : List ℕ → Except PyErr (List HH)
  | [] => .ok []
  | m :: rest =>
      match f m with
      | .error e => .error e
      | .ok x =>
          match mapExcept f rest with
          | .error e => .error e
          | .ok l => .ok (x :: l)

/-- One iteration of the view loop of `initW` (source lines 215-277).
`cvz` is the already-processed covariates array (the processing happens once,
before the loop).  A non-scalar `pcov` leaves `pcov_m` unassigned (lines
223-225), so the `W_Node` call raises UnboundLocalError. -/
def initW_view (st : InitState) (rand : ℕ → ℕ → Arr) (pmean : ℚ)
    (pcov : PCovArg) (qmean : QArg) (qvar : ℚ) (qE qE2 : Option Arr)
    (cvz : Option Arr) (kc : ℕ) (pre : Bool) (m : ℕ) : Except PyErr Node :=
  let dm := st.D.getD m 0
  let pmeanM := constArr dm st.K (some pmean)
  match pcov with
  | .lst _ => .error .unboundLocal
  | .scalar q =>
    let pcovL := List.replicate st.K (PCovE.eye dm q)
    let qvarM := constArr dm st.K (some qvar)
    match mkQMeanW st rand dm qmean with
    | .error e => .error e
    | .ok qm =>
      match cvz with
      | none => .ok (.wNode (dm, st.K) pmeanM pcovL qm qvarM qE qE2 none pre)
      | some cz =>
        match qm with
        | .arr qa =>
          if kc ≤ cols qa ∧ cz.length = qa.length then
            -- line 272 `pcov_m[idx_covariates] = s.nan` has the same
            -- list-indexed-by-ndarray semantics as line 113 of `initZ`:
            -- it only works for a single covariate column.
            if kc = 1 then
              if pcovL.length = 0 then .error .indexError
              else
                .ok (.wNode (dm, st.K) pmeanM (setNanPrefix pcovL kc)
                  (.arr (spliceCols qa cz)) (nanCols qvarM kc) qE qE2
                  (some (List.range kc)) pre)
            else .error .typeError
          else .error .indexError
        | _ => .error .typeError

/-- `initModel.initW` (source lines 175-279). -/
def initW (st : InitState) (rand : ℕ → ℕ → Arr) (pmean : ℚ) (pcov : PCovArg)
    (qmean : QArg) (qvar : ℚ) (qE qE2 : Option Arr) (covariates : Option Arr)
    (scale_covariates : Option (List Bool))
    (precompute_pcovinv : Option (List Bool)) :
    Except PyErr (InitState × Option Arr) :=
  let pre := precompute_pcovinv.getD (List.replicate st.M true)
  match covariates with
  | some cv =>
    match scale_covariates with
    | none => .error .assertError
    | some flags =>
      let kc := cols cv
      let cvz := zeroNaN (scaleCols flags cv)
      match mapExcept
          (fun m => initW_view st rand pmean pcov qmean qvar qE qE2 (some cvz)
            kc (pre.getD m true) m) (List.range st.M) with
      | .error e => .error e
      | .ok ws =>
          let nd := Node.multiview st.M (ws.map some)
          .ok ({ st with nodes := setNode st.nodes "W" nd }, some cvz)
  | none =>
      match mapExcept
          (fun m => initW_view st rand pmean pcov qmean qvar qE qE2 none
            0 (pre.getD m true) m) (List.range st.M) with
      | .error e => .error e
      | .ok ws =>
          let nd := Node.multiview st.M (ws.map some)
          .ok ({ st with nodes := setNode st.nodes "W" nd }, none)

/-- `initModel.initSZ` (source lines 124-173).  The ndarray branch checks the
shape but never assigns `qmean_T1_tmp`; the later `SZ_Node(qmean_T1=qmean_T1_tmp)`
call then raises UnboundLocalError (lines 145-146 and 167). -/
def initSZ (st : InitState) (rand : ℕ → ℕ → Arr)
    (pmean_T0 pmean_T1 pvar_T0 pvar_T1 ptheta qmean_T0 : ℚ) (qmean_T1 : QArg)
    (qvar_T0 qvar_T1 qtheta : ℚ) (qEZ_T0 qEZ_T1 qET : Option Arr) :
    Except PyErr InitState :=
  let tmpRes : Except PyErr Arr :=
    match qmean_T1 with
    | .str s => if s = "random" then .ok (rand st.N st.K) else .error .exitCall
    | .arr a =>
        if shapeOf a = (st.N, st.K) then .error .unboundLocal
        else .error .assertError
    | .num q => .ok (constArr st.N st.K (some q))
    | .noneA => .error .exitCall
    | .other => .error .exitCall
  match tmpRes with
  | .error e => .error e
  | .ok tmp =>
      let nd := Node.szNode (st.N, st.K) ptheta pmean_T0 pvar_T0 pmean_T1
        pvar_T1 qtheta qmean_T0 qvar_T0 tmp qvar_T1 qET qEZ_T0 qEZ_T1
      .ok { st with nodes := setNode st.nodes "SZ" nd }

/-- One iteration of the view loop of `initSW` (source lines 294-335); it has
the same unassigned-`qmean_S1_tmp` slip as `initSZ` (lines 307-308, 329). -/
def initSW_view (st : InitState) (rand : ℕ → ℕ → Arr)
    (pmean_S0 pmean_S1 pvar_S0 pvar_S1 ptheta qmean_S0 : ℚ) (qmean_S1 : QArg)
    (qvar_S0 qvar_S1 qtheta : ℚ) (qEW_S0 qEW_S1 qES : Option Arr) (m : ℕ) :
    Except PyErr Node :=
  let dm := st.D.getD m 0
  let tmpRes : Except PyErr Arr :=
    match qmean_S1 with
    | .str s => if s = "random" then .ok (rand dm st.K) else .error .exitCall
    | .arr a =>
        if shapeOf a = (dm, st.K) then .error .unboundLocal
        else .error .assertError
    | .num q => .ok (constArr dm st.K (some q))
    | .noneA => .error .exitCall
    | .other => .error .exitCall
  match tmpRes with
  | .error e => .error e
  | .ok tmp =>
      .ok (Node.swNode (dm, st.K) ptheta pmean_S0 pvar_S0 pmean_S1 pvar_S1
        qtheta qmean_S0 qvar_S0 tmp qvar_S1 qES qEW_S0 qEW_S1)

/-- `initModel.initSW` (source lines 283-337). -/
def initSW (st : InitState) (rand : ℕ → ℕ → Arr)
    (pmean_S0 pmean_S1 pvar_S0 pvar_S1 ptheta qmean_S0 : ℚ) (qmean_S1 : QArg)
    (qvar_S0 qvar_S1 qtheta : ℚ) (qEW_S0 qEW_S1 qES : Option Arr) :
    Except PyErr InitState :=
  match mapExcept
      (initSW_view st rand pmean_S0 pmean_S1 pvar_S0 pvar_S1 ptheta qmean_S0
        qmean_S1 qvar_S0 qvar_S1 qtheta qEW_S0 qEW_S1 qES) (List.range st.M) with
  | .error e => .error e
  | .ok ws =>
      let nd := Node.multiview st.M (ws.map some)
      .ok { st with nodes := setNode st.nodes "SW" nd }

/-- `initModel.initAlphaZ_k` (source lines 339-353). -/
def initAlphaZ_k (st : InitState) (pa pb qa qb : ℚ) (qE qlnE : Option Arr) :
    InitState :=
  let nd := Node.alphaZk st.K pa pb qa qb qE qlnE
  { st with nodes := setNode st.nodes "AlphaZ" nd }

/-- `initModel.initAlphaZ_groups` (source lines 355-380): group labels are
remapped by `np.unique(groups, return_inverse=True)` to indices into the
sorted list of distinct labels. -/
def initAlphaZ_groups (st : InitState) (groups : List String) (pa pb qa qb : ℚ)
    (qE qlnE : Option Arr) : Except PyErr InitState :=
  if groups.length = st.N then
    let dic := uniqueSorted strLtB groups
    let ix := groups.map (fun g => findIdx0 g dic)
    let n_group := (uniqueSorted natLtB ix).length
    if dic.length = n_group then
      let nd := Node.alphaZgroups (n_group, st.K) pa pb qa qb ix dic qE qlnE
      .ok { st with nodes := setNode st.nodes "AlphaZ" nd }
    else .error .assertError
  else .error .assertError

/-- `initModel.initSigmaZ_k` (source lines 382-386): registers under the key
SigmaZ (and stores the node in the `Sigma` attribute). -/
def initSigmaZ_k (st : InitState) (X : Arr) (n_diag : ℕ) : InitState :=
  let nd := Node.sigmaGrid st.K X n_diag
  { st with SigmaAttr := some nd, nodes := setNode st.nodes "SigmaZ" nd }

/-- `initModel.initSigmaBlockZ_k` (source lines 388-392). -/
def initSigmaBlockZ_k (st : InitState) (X : Arr) (clust : List ℕ) (n_diag : ℕ) :
    InitState :=
  let nd := Node.blockSigmaGrid st.K X clust n_diag
  { st with SigmaAttr := some nd, nodes := setNode st.nodes "SigmaZ" nd }

/-- One iteration of the view loop of `initTau` (source lines 463-482).
The if/elif chain has no else: an unrecognized likelihood leaves the slot at
its initial `None`.  The binomial branch indexes the data list with the
string key `"tot"`, a TypeError. -/
def initTau_view (st : InitState) (pa pb qa qb : ℚ) (qE : Option Arr)
    (transposed : Bool) (m : ℕ) : Except PyErr (Option Node) :=
  let l := st.lik.getD m ""
  let dm := st.D.getD m 0
  if l = "poisson" then
    let tmp := (colMaxes (st.data.getD m [])).map
      (fun x => fadd (some (1 / 4 : ℚ)) (fmul (some (17 / 100 : ℚ)) x))
    .ok (some (.constantN (st.N, dm) tmp))
  else if l = "bernoulli" then .ok (some (.tauJaakkola (st.N, dm) 1))
  else if l = "binomial" then .error .typeError
  else if l = "gaussian" then
    if transposed then .ok (some (.tauN st.N pa pb qa qb qE))
    else .ok (some (.tauD dm pa pb qa qb qE))
  else .ok none

/-- `initModel.initTau` (source lines 448-483). -/
def initTau (st : InitState) (pa pb qa qb : ℚ) (qE : Option Arr)
    (transposed : Bool) : Except PyErr InitState :=
  match mapExcept (initTau_view st pa pb qa qb qE transposed) (List.range st.M) with
  | .error e => .error e
  | .ok slots =>
      .ok { st with nodes := setNode st.nodes "Tau" (.multiview st.M slots) }

/-- One slot of `initY` (source lines 488-503).  The if/elif chain has no
branch for binomial (or any other unlisted tag): the slot stays `None`. -/
def initY_view (st : InitState) (transpose_noise : Bool) (m : ℕ) : Option Node :=
  let l := st.lik.getD m ""
  let dm := st.D.getD m 0
  if l = "gaussian" then
    some (.yNode (st.N, dm) (st.data.getD m []) transpose_noise)
  else if l = "poisson" then
    some (.poissonPseudoY (st.N, dm) (st.data.getD m []) transpose_noise)
  else if l = "bernoulli" then
    some (.bernoulliJaakkola (st.N, dm) (st.data.getD m []) transpose_noise)
  else none

/-- `initModel.initY` (source lines 485-505). -/
def initY (st : InitState) (transpose_noise : Bool) : InitState :=
  let nd := Node.multiview st.M ((List.range st.M).map (initY_view st transpose_noise))
  { st with YAttr := some nd, nodes := setNode st.nodes "Y" nd }

/-- `initModel.initThetaMixedZ_k` (source lines 523-573): partitions the
factor slots by the binary index vector `idx` into a constant sub-node (the
0-marked slots) and a learned sub-node (the 1-marked slots), registering a
mixed wrapper when both are built. -/
def initThetaMixedZ_k (st : InitState) (idx : List ℕ) (pa pb qa qb : ℚ)
    (qE : ThetaQE) : Except PyErr InitState :=
  let qERes : Except PyErr (Option Arr) :=
    match qE with
    | .num q => .ok (some (constArr st.N st.K (some q)))
    | .arr a =>
        if shapeOf a = (st.N, st.K) then .ok (some a) else .error .assertError
    | .noneQ => .ok none
  match qERes with
  | .error e => .error e
  | .ok qEm =>
    let maskC := idx.map (fun x => x == 0)
    let c0 := idx.countP (fun x => x == 0)
    let constRes : Except PyErr (Option Node × InitState) :=
      if c0 = 0 then .ok (none, st)
      else
        match qEm with
        | none => .error .exitCall
        | some qm =>
            let nd := Node.thetaZconst (st.N, c0) (maskCols qm maskC) 1
            .ok (some nd, { st with nodes := setNode st.nodes "ThetaZ" nd })
    match constRes with
    | .error e => .error e
    | .ok cpair =>
      let maskL := idx.map (fun x => x == 1)
      let c1 := idx.countP (fun x => x == 1)
      let lpair : Option Node × InitState :=
        if c1 = 0 then (none, cpair.2)
        else
          let qEl : Option (List NF) :=
            match qEm with
            | none => none
            | some qm => some (selectMask (qm.headD []) maskL)
          let nd := Node.thetaZk c1 pa pb qa qb qEl
          (some nd, { cpair.2 with nodes := setNode cpair.2.nodes "ThetaZ" nd })
      match cpair.1, lpair.1 with
      | some cn, some ln =>
          let nd := Node.mixedThetaZ ln cn idx
          .ok { lpair.2 with nodes := setNode lpair.2.nodes "ThetaZ" nd }
      | _, _ => .ok lpair.2

/-- Posterior-mean value stored in a registered Z node. -/
def Node.zQmean : Node → QMeanVal
  | .zNode _ _ _ qm _ _ _ _ _ => qm
  | _ => .noneV

/-- Prior-covariance list stored in a registered Z node. -/
def Node.zPcov : Node → List PCovE
  | .zNode _ _ pc _ _ _ _ _ _ => pc
  | _ => []

/-- Posterior-variance array stored in a registered Z node. -/
def Node.zQvar : Node → Arr
  | .zNode _ _ _ _ qv _ _ _ _ => qv
  | _ => []

/-- Covariate index list stored in a registered Z node. -/
def Node.zIdxCov : Node → Option (List ℕ)
  | .zNode _ _ _ _ _ _ _ ic _ => ic
  | _ => none

/-- Shape of the posterior-mean matrix of a Gaussian Z or W node, when the
stored posterior mean is an actual matrix. -/
def qmeanShapeOf : Node → Option (ℕ × ℕ)
  | .zNode _ _ _ (.arr a) _ _ _ _ _ => some (shapeOf a)
  | .wNode _ _ _ (.arr a) _ _ _ _ _ => some (shapeOf a)
  | _ => none

/-- Per-view posterior-mean shapes of a multiview composite. -/
def Node.viewQmeanShapes : Node → List (Option (ℕ × ℕ))
  | .multiview _ l => l.map (fun o => match o with
      | some nd => qmeanShapeOf nd
      | none => none)
  | _ => []

lemma lookup_setNode_self (m : List (String × Node)) (k : String) (v : Node) :
    List.lookup k (setNode m k v) = some v := by
  simp [setNode, List.lookup]

lemma lookup_filter_ne (m : List (String × Node)) (k k2 : String) (h : k ≠ k2) :
    List.lookup k (m.filter (fun p => p.1 != k2)) = List.lookup k m := by
  induction m with
  | nil => rfl
  | cons a t ih =>
    have hk2 : (k == k2) = false := by simp [h]
    by_cases ha : a.1 = k2
    · have hk : (k == a.1) = false := by simp [ha, h]
      simp [List.filter_cons, ha, List.lookup, hk, hk2, ih]
    · by_cases hk : k = a.1
      · simp [List.filter_cons, ha, List.lookup, hk]
      · have hk' : (k == a.1) = false := by simp [hk]
        simp [List.filter_cons, ha, List.lookup, hk', hk2, ih]

lemma lookup_setNode_ne (m : List (String × Node)) (k k2 : String) (v : Node)
    (h : k ≠ k2) : List.lookup k (setNode m k2 v) = List.lookup k m := by
  have hk : (k == k2) = false := by simp [h]
  simp [setNode, List.lookup, hk, lookup_filter_ne m k k2 h]

lemma countKey_setNode (m : List (String × Node)) (k : String) (v : Node) :
    (setNode m k v).countP (fun p => p.1 == k) = 1 := by
  have h0 : (m.filter (fun p => p.1 != k)).countP (fun p => p.1 == k) = 0 := by
    rw [List.countP_eq_zero]
    intro p hp
    have := (List.mem_filter.mp hp).2
    simpa using this
  simp [setNode, List.countP_cons, h0]

lemma wf_constArr (r c : ℕ) (v : NF) : wellFormed r c (constArr r c v) := by
  refine ⟨by simp [constArr], ?_⟩
  intro row hrow
  have hrep : row = List.replicate c v :=
    List.eq_of_mem_replicate (by simpa [constArr] using hrow)
  simp [hrep]

lemma cols_eq {r c : ℕ} {a : Arr} (h : wellFormed r c a) (hr : 0 < r) :
    cols a = c := by
  cases a with
  | nil =>
      have h0 : (0 : ℕ) = r := by simpa using h.1
      exact absurd h0 (by omega)
  | cons row t =>
      show ((row :: t).headD []).length = c
      exact h.2 row (List.mem_cons_self row t)

lemma headD_constArr {r : ℕ} (hr : 0 < r) (c : ℕ) (v : NF) :
    (constArr r c v).headD [] = List.replicate c v := by
  cases r with
  | zero => omega
  | succ n => simp [constArr, List.replicate_succ]

lemma cols_constArr {r : ℕ} (hr : 0 < r) (c : ℕ) (v : NF) :
    cols (constArr r c v) = c := by
  unfold cols
  rw [headD_constArr hr]
  simp

lemma shapeOf_constArr {r : ℕ} (hr : 0 < r) (c : ℕ) (v : NF) :
    shapeOf (constArr r c v) = (r, c) := by
  unfold shapeOf
  rw [cols_constArr hr]
  simp [constArr]

lemma wf_row {r c i : ℕ} {a : Arr} (h : wellFormed r c a) (hi : i < r) :
    ∃ row, a[i]? = some row ∧ row.length = c ∧ ∀ j, fget row j = getE a i j := by
  have hl : i < a.length := by rw [h.1]; exact hi
  refine ⟨a[i], List.getElem?_eq_getElem hl, h.2 _ (List.getElem_mem hl), ?_⟩
  intro j
  simp [getE, List.getElem?_eq_getElem hl]

lemma fget_range_map (g : ℕ → NF) (n j : ℕ) (hj : j < n) :
    fget ((List.range n).map g) j = g j := by
  simp [fget, List.getElem?_map, List.getElem?_range hj]

lemma getE_constArr {r c i j : ℕ} (hi : i < r) (hj : j < c) (v : NF) :
    getE (constArr r c v) i j = v := by
  simp [getE, fget, constArr, List.getElem?_replicate_of_lt, hi, hj]

lemma length_zeroNaN (a : Arr) : (zeroNaN a).length = a.length := by
  simp [zeroNaN]

lemma length_scaleCols (flags : List Bool) (a : Arr) :
    (scaleCols flags a).length = a.length := by
  simp [scaleCols]

lemma wf_zeroNaN {r c : ℕ} {a : Arr} (h : wellFormed r c a) :
    wellFormed r c (zeroNaN a) := by
  refine ⟨by simp [zeroNaN, h.1], ?_⟩
  intro row hrow
  obtain ⟨row0, hrow0, hmap⟩ := List.mem_map.mp hrow
  simp [← hmap, h.2 row0 hrow0]

lemma wf_scaleCols {r c : ℕ} {a : Arr} (flags : List Bool)
    (h : wellFormed r c a) : wellFormed r c (scaleCols flags a) := by
  refine ⟨by simp [scaleCols, h.1], ?_⟩
  intro row hrow
  obtain ⟨row0, hrow0, hmap⟩ := List.mem_map.mp hrow
  simp [← hmap, h.2 row0 hrow0]

lemma getE_zeroNaN {r c i j : ℕ} {a : Arr} (h : wellFormed r c a)
    (hi : i < r) (hj : j < c) :
    getE (zeroNaN a) i j = zeroIfNan (getE a i j) := by
  obtain ⟨row, hrow, hlen, hget⟩ := wf_row h hi
  have hjr : j < row.length := by omega
  rw [← hget j]
  simp [getE, zeroNaN, List.getElem?_map, hrow, fget,
    List.getElem?_eq_getElem hjr]

lemma getE_scaleCols {r c i j : ℕ} {a : Arr} (flags : List Bool)
    (h : wellFormed r c a) (hi : i < r) (hj : j < c) :
    getE (scaleCols flags a) i j =
      if flags.getD j false then
        fdiv (fsub (getE a i j) (nanmean (col a j))) (nanstd (col a j))
      else getE a i j := by
  obtain ⟨row, hrow, hlen, hget⟩ := wf_row h hi
  have hjr : j < row.length := by omega
  rw [← hget j]
  simp only [getE, scaleCols, List.getElem?_map, hrow, Option.map_some',
    Option.getD_some]
  rw [fget_range_map _ _ _ hjr]

lemma getE_nanCols {r c i j : ℕ} {a : Arr} (kc : ℕ)
    (h : wellFormed r c a) (hi : i < r) (hj : j < c) :
    getE (nanCols a kc) i j = if j < kc then none else getE a i j := by
  obtain ⟨row, hrow, hlen, hget⟩ := wf_row h hi
  have hjr : j < row.length := by omega
  rw [← hget j]
  simp only [getE, nanCols, List.getElem?_map, hrow, Option.map_some',
    Option.getD_some]
  rw [fget_range_map _ _ _ hjr]

lemma getE_spliceCols {i j : ℕ} (q c : Arr) (hi : i < q.length)
    (hj : j < cols q) :
    getE (spliceCols q c) i j = if j < cols c then getE c i j else getE q i j := by
  simp only [getE, spliceCols, List.getElem?_map, List.getElem?_range hi,
    Option.map_some', Option.getD_some]
  rw [fget_range_map _ _ _ hj]

lemma length_spliceCols (q c : Arr) : (spliceCols q c).length = q.length := by
  simp [spliceCols]

lemma setNanPrefix_getD {l : List PCovE} {kc j : ℕ} (d : PCovE)
    (hj : j < l.length) :
    (setNanPrefix l kc).getD j d =
      if j < kc then PCovE.nanMark else l.getD j d := by
  simp [setNanPrefix, List.getD_eq_getElem?_getD, List.getElem?_map,
    List.getElem?_range hj, List.getElem?_eq_getElem hj]

lemma selectMask_replicate (v : NF) :
    ∀ (mask : List Bool) (n : ℕ), mask.length = n →
      selectMask (List.replicate n v) mask = List.replicate (mask.countP id) v := by
  intro mask
  induction mask with
  | nil => intro n h; subst h; rfl
  | cons b bs ih =>
    intro n h
    cases n with
    | zero => simp at h
    | succ n0 =>
      have hb : bs.length = n0 := by simpa using h
      cases b with
      | false =>
          simp only [List.replicate_succ, selectMask, List.zip_cons_cons,
            List.filterMap_cons]
          simpa [selectMask, List.countP_cons] using ih n0 hb
      | true =>
          simp only [List.replicate_succ, selectMask, List.zip_cons_cons,
            List.filterMap_cons]
          have := ih n0 hb
          simp only [selectMask] at this
          simp [this, List.countP_cons, List.replicate_succ]

lemma maskCols_constArr {r c : ℕ} {mask : List Bool} (hlen : mask.length = c)
    (v : NF) :
    maskCols (constArr r c v) mask = constArr r (mask.countP id) v := by
  simp [maskCols, constArr, List.map_replicate, selectMask_replicate v mask c hlen]

lemma countP_true_map {p : ℕ → Bool} (l : List ℕ) :
    (l.map p).countP id = l.countP p := by
  rw [List.countP_map]
  rfl

lemma countP_binary (idx : List ℕ) (h : ∀ x ∈ idx, x ≤ 1) :
    idx.countP (fun x => x == 0) + idx.countP (fun x => x == 1) = idx.length := by
  induction idx with
  | nil => rfl
  | cons a t ih =>
    have ha : a ≤ 1 := h a (List.mem_cons_self a t)
    have ht : ∀ x ∈ t, x ≤ 1 := fun x hx => h x (List.mem_cons_of_mem a hx)
    have ih' := ih ht
    rcases Nat.le_one_iff_eq_zero_or_eq_one.mp ha with h0 | h1
    · subst h0; simp [List.countP_cons]; omega
    · subst h1; simp [List.countP_cons]; omega

lemma length_transposeArr (a : Arr) : (transposeArr a).length = cols a := by
  simp [transposeArr]

lemma length_col (a : Arr) (j : ℕ) : (col a j).length = a.length := by
  simp [col]

lemma cols_transposeArr {a : Arr} (h : 0 < cols a) :
    cols (transposeArr a) = a.length := by
  unfold transposeArr
  cases hc : cols a with
  | zero => omega
  | succ n =>
      rw [List.range_succ_eq_map]
      simp [cols, length_col]

lemma flatten_length_const {n : ℕ} :
    ∀ (l : List Arr), (∀ a ∈ l, a.length = n) → l.flatten.length = l.length * n
  | [], _ => by simp
  | a :: t, h => by
      have ha := h a (List.mem_cons_self a t)
      have ht := flatten_length_const t (fun b hb => h b (List.mem_cons_of_mem a hb))
      simp only [List.flatten_cons, List.length_append, List.length_cons, ha, ht]
      ring

lemma cols_flatten {n c : ℕ} {a : Arr} {rest : List Arr} (hn : 0 < n)
    (h : ∀ b ∈ a :: rest, wellFormed n c b) : cols (a :: rest).flatten = c := by
  have ha := h a (List.mem_cons_self a rest)
  cases a with
  | nil =>
      have h0 : (0 : ℕ) = n := by simpa using ha.1
      exact absurd h0 (by omega)
  | cons r0 t =>
      have : cols ((r0 :: t) ++ rest.flatten) = r0.length := by
        simp [cols]
      simp only [List.flatten_cons, List.cons_append, this]
      exact ha.2 r0 (List.mem_cons_self r0 t)

lemma concatRows_ok {c : ℕ} {l : List Arr} (hne : l ≠ [])
    (hc : ∀ b ∈ l, cols b = c) : concatRows l = .ok l.flatten := by
  cases l with
  | nil => exact absurd rfl hne
  | cons a rest =>
      have hall : rest.all (fun b => cols b == cols a) = true := by
        rw [List.all_eq_true]
        intro b hb
        have h1 := hc b (List.mem_cons_of_mem a hb)
        have h2 := hc a (List.mem_cons_self a rest)
        simp [h1, h2]
      simp [concatRows, hall]

/-- A deterministic stand-in for the `stats.norm.rvs` draws: the all-zero
matrix of the requested shape. -/
def rand0 : ℕ → ℕ → Arr := fun r c => constArr r c (some 0)

/-- A minimal model state: one view, one sample, one feature, one factor. -/
def stA : InitState :=
  { N := 1, K := 1, M := 1, D := [1], lik := ["gaussian"],
    data := [[[some 0]]], nodes := [] }

/-- A model state with two samples and two factors. -/
def stB : InitState :=
  { N := 2, K := 2, M := 1, D := [2], lik := ["gaussian"],
    data := [constArr 2 2 (some 0)], nodes := [] }

/-- The state used for the group-ARD claim: five samples. -/
def stC6 : InitState :=
  { N := 5, K := 2, M := 1, D := [3], lik := ["gaussian"],
    data := [constArr 5 3 (some 0)], nodes := [] }

/-- Claim C6: `initAlphaZ_groups` with labels a,a,b,c,b and N = 5 registers
an AlphaZ node with exactly 3 groups, index sequence 0,0,1,2,1 into the
sorted unique labels a,b,c, and with only 4 labels the call fails the
length-consistency assert. -/
theorem initAlphaZ_groups_remap_C6 :
    (initAlphaZ_groups stC6 ["a", "a", "b", "c", "b"] 1 1 1 1 none none).map
        (fun s => List.lookup "AlphaZ" s.nodes) =
      .ok (some (Node.alphaZgroups (3, 2) 1 1 1 1 [0, 0, 1, 2, 1]
        ["a", "b", "c"] none none)) ∧
    initAlphaZ_groups stC6 ["a", "a", "b", "c"] 1 1 1 1 none none =
      .error .assertError := by
  constructor
  · rfl
  · rfl

/-- Claim C3 (code bug): an unrecognized string mode is not rejected.
`initZ` with mode foo completes and registers the Z node with the raw
string stored as the posterior mean (the string dispatch of lines 68-84 has
no else branch), and `initW` with the same mode dies with an
UnboundLocalError instead of a descriptive unsupported-mode error. -/
theorem initZ_unknown_mode_C3 :
    (initZ stA rand0 0 (.scalar 1) (.str "foo") 1 none none none none
        true).map (fun p => (List.lookup "Z" p.1.nodes).map Node.zQmean) =
      .ok (some (.str "foo")) ∧
    initW stA rand0 0 (.scalar 1) (.str "foo") 1 none none none none none =
      .error .unboundLocal := by
  constructor
  · rfl
  · rfl

/-- Claim C4 (code bug): `initSZ` (and `initSW`) with a correctly shaped
literal matrix passes the shape assert but never assigns the matrix to
`qmean_T1_tmp`, so the node construction fails with an UnboundLocalError
instead of registering the node with that posterior mean. -/
theorem initSZ_matrix_C4 :
    initSZ stA rand0 0 0 1 1 1 0 (.arr [[some 0]]) 1 1 1 none none none =
      .error .unboundLocal ∧
    initSW stA rand0 0 0 1 1 1 0 (.arr [[some 0]]) 1 1 1 none none none =
      .error .unboundLocal := by
  constructor
  · rfl
  · rfl

/-- Claim C8 counterexample: after `initAlphaZ_k` and then `initSigmaZ_k` the
earlier AlphaZ registration is still present — the two initializers register
under the distinct names AlphaZ and SigmaZ, so the later call does not
overwrite the earlier one. -/
theorem alphaZ_sigmaZ_both_present_C8 :
    List.lookup "AlphaZ"
        (initSigmaZ_k (initAlphaZ_k stB 1 1 1 1 none none)
          [[some 0], [some 1]] 0).nodes =
      some (Node.alphaZk 2 1 1 1 1 none none) ∧
    List.lookup "SigmaZ"
        (initSigmaZ_k (initAlphaZ_k stB 1 1 1 1 none none)
          [[some 0], [some 1]] 0).nodes =
      some (Node.sigmaGrid 2 [[some 0], [some 1]] 0) := by
  constructor
  · rfl
  · rfl

/-- Claim C8 (amended): `initAlphaZ_k` registers under AlphaZ and
`initSigmaZ_k` under SigmaZ, distinct names, and both nodes remain after the
pair of calls; last-call-wins overwriting holds only for same-name
registrations, e.g. `initSigmaZ_k` followed by `initSigmaBlockZ_k`, after
which exactly one SigmaZ binding remains, holding the second node. -/
theorem alphaZ_sigmaZ_distinct_names_C8 (st : InitState) (pa pb qa qb : ℚ)
    (qE qlnE : Option Arr) (X X2 : Arr) (n n2 : ℕ) (clust : List ℕ) :
    List.lookup "AlphaZ"
        (initSigmaZ_k (initAlphaZ_k st pa pb qa qb qE qlnE) X n).nodes =
      some (Node.alphaZk st.K pa pb qa qb qE qlnE) ∧
    List.lookup "SigmaZ"
        (initSigmaZ_k (initAlphaZ_k st pa pb qa qb qE qlnE) X n).nodes =
      some (Node.sigmaGrid st.K X n) ∧
    List.lookup "SigmaZ"
        (initSigmaBlockZ_k (initSigmaZ_k st X n) X2 clust n2).nodes =
      some (Node.blockSigmaGrid st.K X2 clust n2) ∧
    ((initSigmaBlockZ_k (initSigmaZ_k st X n) X2 clust n2).nodes.countP
        (fun p => p.1 == "SigmaZ")) = 1 := by
  have hne : ("AlphaZ" : String) ≠ "SigmaZ" := by decide
  refine ⟨?_, ?_, ?_, ?_⟩
  · simp only [initSigmaZ_k, initAlphaZ_k]
    rw [lookup_setNode_ne _ _ _ _ hne, lookup_setNode_self]
  · simp only [initSigmaZ_k, initAlphaZ_k]
    rw [lookup_setNode_self]
  · simp only [initSigmaBlockZ_k, initSigmaZ_k]
    rw [lookup_setNode_self]
  · simp only [initSigmaBlockZ_k, initSigmaZ_k]
    rw [countKey_setNode]

/-- A one-view model state whose single likelihood tag is the argument. -/
def stLik (tag : String) : InitState :=
  { N := 1, K := 1, M := 1, D := [1], lik := [tag],
    data := [[[some 0]]], nodes := [] }

/-- Claim C7 counterexample: `initTau` on a view with the unrecognized
likelihood tag warp does not fail — it completes and registers a Tau
composite whose slot for that view is empty (None). -/
theorem initTau_unknown_completes_C7 :
    (initTau (stLik "warp") 1 1 1 1 none false).map
        (fun s => List.lookup "Tau" s.nodes) =
      .ok (some (.multiview 1 [none])) := by
  rfl

/-- Claim C7 (amended): a likelihood tag outside the recognized set is
silently skipped by `initTau`, which completes and registers a composite
with a None slot; `initY` likewise completes on a binomial view with a None
slot; and `initTau` on a binomial view fails, but with a TypeError from
indexing the data list with the string key tot, not a clean construction
error. -/
theorem tau_y_likelihood_dispatch_C7 (tag : String) (hg : tag ≠ "gaussian")
    (hp : tag ≠ "poisson") (hb : tag ≠ "bernoulli")
    (hbin : tag ≠ "binomial") :
    (initTau (stLik tag) 1 1 1 1 none false).map
        (fun s => List.lookup "Tau" s.nodes) =
      .ok (some (.multiview 1 [none])) ∧
    List.lookup "Y" (initY (stLik "binomial") false).nodes =
      some (.multiview 1 [none]) ∧
    initTau (stLik "binomial") 1 1 1 1 none false = .error .typeError := by
  refine ⟨?_, ?_, ?_⟩
  · simp [initTau, mapExcept, initTau_view, stLik, hg, hp, hb, hbin,
      Except.map, lookup_setNode_self]
  · rfl
  · rfl

/-- Witness for C7 at the concrete unrecognized tag warp. -/
theorem tau_y_likelihood_dispatch_C7_witness :
    (("warp" : String) ≠ "gaussian" ∧ ("warp" : String) ≠ "poisson" ∧
      ("warp" : String) ≠ "bernoulli" ∧ ("warp" : String) ≠ "binomial") ∧
    (initTau (stLik "warp") 1 1 1 1 none false).map
        (fun s => List.lookup "Tau" s.nodes) =
      .ok (some (.multiview 1 [none])) :=
  ⟨⟨by decide, by decide, by decide, by decide⟩,
    (tau_y_likelihood_dispatch_C7 "warp" (by decide) (by decide) (by decide)
      (by decide)).1⟩

/-- Claim C5: `initZ` with a literal matrix whose shape differs from (N, K)
fails with the shape assert; since the node mapping is only written at the
very end of `initZ` (line 121, after the line-87 assert), the failing call
leaves the mapping unchanged. -/
theorem initZ_wrong_shape_C5 (st : InitState) (rand : ℕ → ℕ → Arr)
    (pm : ℚ) (pcov : PCovArg) (qv : ℚ) (qE qE2 : Option Arr)
    (cov : Option Arr) (sc : Option (List Bool)) (pre : Bool) (a : Arr)
    (h : shapeOf a ≠ (st.N, st.K)) :
    initZ st rand pm pcov (.arr a) qv qE qE2 cov sc pre =
      .error .assertError := by
  simp [initZ, mkQMeanZ, h]

/-- Witness for C5: a 2-by-1 literal matrix against N = K = 1. -/
theorem initZ_wrong_shape_C5_witness :
    shapeOf [[some 0], [some 0]] ≠ (stA.N, stA.K) ∧
    initZ stA rand0 0 (.scalar 1) (.arr [[some 0], [some 0]]) 1 none none
      none none true = .error .assertError :=
  ⟨by decide, initZ_wrong_shape_C5 stA rand0 0 (.scalar 1) 1 none none none
    none true [[some 0], [some 0]] (by decide)⟩

/-- Claim C2: for a binary index vector over the K factor slots (K positive)
and a supplied scalar expectation, `initThetaMixedZ_k` succeeds; the 0-count
plus the 1-count equals K; with no 0-marked slot only the learned Beta
sub-node is registered under ThetaZ, with no 1-marked slot only the constant
sub-node, and with both subsets non-empty the mixed composite wrapping the
learned sub-node, the constant sub-node and the index vector. -/
theorem thetaMixedZ_partition_C2 (st : InitState) (idx : List ℕ)
    (pa pb qa qb q : ℚ) (hlen : idx.length = st.K)
    (hbin : ∀ x ∈ idx, x ≤ 1) (hK : 0 < st.K) (hN : 0 < st.N) :
    ∃ st1, initThetaMixedZ_k st idx pa pb qa qb (.num q) = .ok st1 ∧
      idx.countP (fun x => x == 0) + idx.countP (fun x => x == 1) = st.K ∧
      (idx.countP (fun x => x == 0) = 0 →
        List.lookup "ThetaZ" st1.nodes =
          some (Node.thetaZk (idx.countP (fun x => x == 1)) pa pb qa qb
            (some (List.replicate (idx.countP (fun x => x == 1)) (some q))))) ∧
      (idx.countP (fun x => x == 1) = 0 →
        List.lookup "ThetaZ" st1.nodes =
          some (Node.thetaZconst (st.N, idx.countP (fun x => x == 0))
            (constArr st.N (idx.countP (fun x => x == 0)) (some q)) 1)) ∧
      (0 < idx.countP (fun x => x == 0) → 0 < idx.countP (fun x => x == 1) →
        List.lookup "ThetaZ" st1.nodes =
          some (Node.mixedThetaZ
            (Node.thetaZk (idx.countP (fun x => x == 1)) pa pb qa qb
              (some (List.replicate (idx.countP (fun x => x == 1)) (some q))))
            (Node.thetaZconst (st.N, idx.countP (fun x => x == 0))
              (constArr st.N (idx.countP (fun x => x == 0)) (some q)) 1)
            idx)) := by
  have hsum : idx.countP (fun x => x == 0) + idx.countP (fun x => x == 1) =
      st.K := by
    rw [countP_binary idx hbin, hlen]
  have hmaskC : (idx.map (fun x => x == 0)).length = st.K := by
    simp [hlen]
  have hmaskL : (idx.map (fun x => x == 1)).length = st.K := by
    simp [hlen]
  have hcstC : maskCols (constArr st.N st.K (some q))
      (idx.map (fun x => x == 0)) =
      constArr st.N (idx.countP (fun x => x == 0)) (some q) := by
    rw [maskCols_constArr hmaskC, countP_true_map]
  have hhead : ((constArr st.N st.K (some q)).head?).getD [] =
      List.replicate st.K (some q) := by
    have h := headD_constArr hN st.K (some q)
    simpa using h
  have hselL : selectMask (((constArr st.N st.K (some q)).head?).getD [])
      (idx.map (fun x => x == 1)) =
      List.replicate (idx.countP (fun x => x == 1)) (some q) := by
    rw [hhead, selectMask_replicate _ _ _ hmaskL, countP_true_map]
  by_cases h0 : idx.countP (fun x => x == 0) = 0
  · by_cases h1 : idx.countP (fun x => x == 1) = 0
    · exfalso; omega
    · refine ⟨{ st with nodes := setNode st.nodes "ThetaZ" (Node.thetaZk (idx.countP (fun x => x == 1)) pa pb qa qb (some (List.replicate (idx.countP (fun x => x == 1)) (some q)))) }, ?_, hsum, ?_, ?_, ?_⟩
      · simp [initThetaMixedZ_k, h0, h1, hselL]
      · intro _
        exact lookup_setNode_self _ _ _
      · intro h1'
        exact absurd h1' h1
      · intro hc0 _
        exact absurd h0 (by omega)
  · by_cases h1 : idx.countP (fun x => x == 1) = 0
    · refine ⟨{ st with nodes := setNode st.nodes "ThetaZ" (Node.thetaZconst (st.N, idx.countP (fun x => x == 0)) (constArr st.N (idx.countP (fun x => x == 0)) (some q)) 1) }, ?_, hsum, ?_, ?_, ?_⟩
      · simp [initThetaMixedZ_k, h0, h1, hcstC]
      · intro h0'
        exact absurd h0' h0
      · intro _
        exact lookup_setNode_self _ _ _
      · intro _ hc1
        exact absurd h1 (by omega)
    · refine ⟨{ st with nodes := setNode (setNode (setNode st.nodes "ThetaZ" (Node.thetaZconst (st.N, idx.countP (fun x => x == 0)) (constArr st.N (idx.countP (fun x => x == 0)) (some q)) 1)) "ThetaZ" (Node.thetaZk (idx.countP (fun x => x == 1)) pa pb qa qb (some (List.replicate (idx.countP (fun x => x == 1)) (some q))))) "ThetaZ" (Node.mixedThetaZ (Node.thetaZk (idx.countP (fun x => x == 1)) pa pb qa qb (some (List.replicate (idx.countP (fun x => x == 1)) (some q)))) (Node.thetaZconst (st.N, idx.countP (fun x => x == 0)) (constArr st.N (idx.countP (fun x => x == 0)) (some q)) 1) idx) }, ?_, hsum, ?_, ?_, ?_⟩
      · simp [initThetaMixedZ_k, h0, h1, hcstC, hselL]
      · intro h0'
        exact absurd h0' h0
      · intro h1'
        exact absurd h1' h1
      · intro _ _
        exact lookup_setNode_self _ _ _

/-- Witness for C2 at the index vector 0,1 with two factors. -/
theorem thetaMixedZ_partition_C2_witness :
    (([0, 1] : List ℕ).length = stB.K ∧ (∀ x ∈ ([0, 1] : List ℕ), x ≤ 1) ∧
      0 < stB.K ∧ 0 < stB.N) ∧
    (∃ st1, initThetaMixedZ_k stB [0, 1] 1 1 1 1 (.num (1/2)) = .ok st1 ∧
      ([0, 1] : List ℕ).countP (fun x => x == 0) +
        ([0, 1] : List ℕ).countP (fun x => x == 1) = stB.K ∧
      (([0, 1] : List ℕ).countP (fun x => x == 0) = 0 →
        List.lookup "ThetaZ" st1.nodes =
          some (Node.thetaZk (([0, 1] : List ℕ).countP (fun x => x == 1))
            1 1 1 1 (some (List.replicate
              (([0, 1] : List ℕ).countP (fun x => x == 1)) (some (1/2)))))) ∧
      (([0, 1] : List ℕ).countP (fun x => x == 1) = 0 →
        List.lookup "ThetaZ" st1.nodes =
          some (Node.thetaZconst
            (stB.N, ([0, 1] : List ℕ).countP (fun x => x == 0))
            (constArr stB.N (([0, 1] : List ℕ).countP (fun x => x == 0))
              (some (1/2))) 1)) ∧
      (0 < ([0, 1] : List ℕ).countP (fun x => x == 0) →
        0 < ([0, 1] : List ℕ).countP (fun x => x == 1) →
        List.lookup "ThetaZ" st1.nodes =
          some (Node.mixedThetaZ
            (Node.thetaZk (([0, 1] : List ℕ).countP (fun x => x == 1))
              1 1 1 1 (some (List.replicate
                (([0, 1] : List ℕ).countP (fun x => x == 1)) (some (1/2)))))
            (Node.thetaZconst
              (stB.N, ([0, 1] : List ℕ).countP (fun x => x == 0))
              (constArr stB.N (([0, 1] : List ℕ).countP (fun x => x == 0))
                (some (1/2))) 1)
            [0, 1]))) :=
  ⟨⟨by decide, by decide, by decide, by decide⟩,
    thetaMixedZ_partition_C2 stB [0, 1] 1 1 1 1 (1/2) (by decide) (by decide)
      (by decide) (by decide)⟩

/-- Claim C1 counterexample: with two covariate columns the call does not
succeed: it fails with a TypeError at `pcov[idx_covariates] = s.nan`
(line 113), because `pcov` is a Python list and a two-element index array
cannot index it; no Z node is registered. -/
theorem initZ_covariates_counter_C1 :
    initZ stB rand0 0 (.scalar 1) (.str "random") 1 none none
      (some [[some 1, some 2], [some (-1), some 0]]) (some [true, true])
      true = .error .typeError := by
  rfl

/-- Claim C1 (amended): with a single covariate column (Kc = 1) the call
succeeds and, in the registered Z node, the covariate column of the
posterior mean holds the centered, unit-variance-scaled values for a
flagged column (raw values if unflagged) with NaN entries replaced by 0,
while the matching prior-covariance entry and posterior-variance column are
set to the NaN marker and the covariate index list is recorded; with two or
more covariate columns the call instead fails with a TypeError at the
prior-covariance write of line 113 (the Python list `pcov` indexed by a
multi-element integer array), before any node is registered. -/
theorem initZ_covariates_C1 (st : InitState) (rand : ℕ → ℕ → Arr)
    (pm pc qv : ℚ) (qE qE2 : Option Arr) (cv : Arr) (flags : List Bool)
    (pre : Bool) (hN : 0 < st.N) (hwf : wellFormed st.N (cols cv) cv)
    (hflags : flags.length = cols cv) (hkK : cols cv ≤ st.K)
    (hrand : wellFormed st.N st.K (rand st.N st.K)) :
    (cols cv = 1 →
      ∃ st1 cvOut, initZ st rand pm (.scalar pc) (.str "random") qv qE qE2
          (some cv) (some flags) pre = .ok (st1, cvOut) ∧
        ∃ nd, List.lookup "Z" st1.nodes = some nd ∧
          (∃ qa, nd.zQmean = .arr qa ∧ ∀ i < st.N, ∀ j < cols cv,
            getE qa i j = zeroIfNan (
              if flags.getD j false then
                fdiv (fsub (getE cv i j) (nanmean (col cv j)))
                  (nanstd (col cv j))
              else getE cv i j)) ∧
          (∀ j < cols cv, nd.zPcov.getD j (PCovE.eye 0 0) = PCovE.nanMark) ∧
          (∀ i < st.N, ∀ j < cols cv, getE nd.zQvar i j = none) ∧
          nd.zIdxCov = some (List.range (cols cv))) ∧
    (2 ≤ cols cv →
      initZ st rand pm (.scalar pc) (.str "random") qv qE qE2 (some cv)
        (some flags) pre = .error .typeError) := by
  have hwfS : wellFormed st.N (cols cv) (scaleCols flags cv) :=
    wf_scaleCols flags hwf
  have hwfZ : wellFormed st.N (cols cv) (zeroNaN (scaleCols flags cv)) :=
    wf_zeroNaN hwfS
  have hcolsr : cols (rand st.N st.K) = st.K := cols_eq hrand hN
  have hlenz : (zeroNaN (scaleCols flags cv)).length =
      (rand st.N st.K).length := by
    rw [length_zeroNaN, length_scaleCols, hwf.1, hrand.1]
  constructor
  · intro h1
    have hcond1 : 1 ≤ cols (rand st.N st.K) ∧
        (zeroNaN (scaleCols flags cv)).length = (rand st.N st.K).length := by
      constructor
      · rw [hcolsr]; omega
      · exact hlenz
    have hK0 : ¬ st.K = 0 := by omega
    have heq : initZ st rand pm (.scalar pc) (.str "random") qv qE qE2
        (some cv) (some flags) pre =
        .ok ({ st with nodes := setNode st.nodes "Z" (Node.zNode (st.N, st.K) (constArr st.N st.K (some pm)) (setNanPrefix (List.replicate st.K (PCovE.eye st.N pc)) 1) (.arr (spliceCols (rand st.N st.K) (zeroNaN (scaleCols flags cv)))) (nanCols (constArr st.N st.K (some qv)) 1) qE qE2 (some (List.range 1)) pre) }, some (zeroNaN (scaleCols flags cv))) := by
      simp [initZ, mkQMeanZ, h1, hcond1, hK0]
    refine ⟨_, _, heq, _, lookup_setNode_self _ _ _, ?_, ?_, ?_, ?_⟩
    · refine ⟨_, rfl, ?_⟩
      intro i hi j hj
      have hiq : i < (rand st.N st.K).length := by rw [hrand.1]; exact hi
      have hjq : j < cols (rand st.N st.K) := by rw [hcolsr]; omega
      rw [getE_spliceCols _ _ hiq hjq]
      have hcz : cols (zeroNaN (scaleCols flags cv)) = cols cv :=
        cols_eq hwfZ hN
      rw [hcz, if_pos hj, getE_zeroNaN hwfS hi hj,
        getE_scaleCols flags hwf hi hj]
    · intro j hj
      show (setNanPrefix (List.replicate st.K (PCovE.eye st.N pc))
          1).getD j (PCovE.eye 0 0) = PCovE.nanMark
      have hjl : j < (List.replicate st.K (PCovE.eye st.N pc)).length := by
        simp; omega
      rw [setNanPrefix_getD _ hjl, if_pos (show j < 1 by omega)]
    · intro i hi j hj
      show getE (nanCols (constArr st.N st.K (some qv)) 1) i j = none
      have hjK : j < st.K := by omega
      rw [getE_nanCols 1 (wf_constArr st.N st.K (some qv)) hi hjK,
        if_pos (show j < 1 by omega)]
    · show some (List.range 1) = some (List.range (cols cv))
      rw [h1]
  · intro h2
    have hcond : cols cv ≤ cols (rand st.N st.K) ∧
        (zeroNaN (scaleCols flags cv)).length = (rand st.N st.K).length := by
      constructor
      · rw [hcolsr]; exact hkK
      · exact hlenz
    have hne1 : ¬ cols cv = 1 := by omega
    simp [initZ, mkQMeanZ, hcond, hne1]

/-- Witness for C1: the success case at a single covariate column holding
1 and -1 (mean 0, standard deviation 1, so scaling is the identity), and
the failure case at a two-column covariate matrix. -/
theorem initZ_covariates_C1_witness :
    ((0 < stB.N ∧ wellFormed stB.N (cols [[some 1], [some (-1)]])
        [[some 1], [some (-1)]] ∧
      ([true] : List Bool).length = cols [[some 1], [some (-1)]] ∧
      cols [[some 1], [some (-1)]] ≤ stB.K ∧
      wellFormed stB.N stB.K (rand0 stB.N stB.K) ∧
      cols [[some 1], [some (-1)]] = 1) ∧
    (∃ st1 cvOut, initZ stB rand0 0 (.scalar 1) (.str "random") 1 none none
        (some [[some 1], [some (-1)]]) (some [true]) true = .ok (st1, cvOut) ∧
      ∃ nd, List.lookup "Z" st1.nodes = some nd ∧
        (∃ qa, nd.zQmean = .arr qa ∧
          ∀ i < stB.N, ∀ j < cols [[some 1], [some (-1)]],
          getE qa i j = zeroIfNan (
            if ([true] : List Bool).getD j false then
              fdiv (fsub (getE [[some 1], [some (-1)]] i j)
                  (nanmean (col [[some 1], [some (-1)]] j)))
                (nanstd (col [[some 1], [some (-1)]] j))
            else getE [[some 1], [some (-1)]] i j)) ∧
        (∀ j < cols [[some 1], [some (-1)]],
          nd.zPcov.getD j (PCovE.eye 0 0) = PCovE.nanMark) ∧
        (∀ i < stB.N, ∀ j < cols [[some 1], [some (-1)]],
          getE nd.zQvar i j = none) ∧
        nd.zIdxCov = some (List.range (cols [[some 1], [some (-1)]])))) ∧
    ((2 ≤ cols [[some 1, some 2], [some (-1), some 0]]) ∧
      initZ stB rand0 0 (.scalar 1) (.str "random") 1 none none
        (some [[some 1, some 2], [some (-1), some 0]]) (some [true, true])
        true = .error .typeError) :=
  ⟨⟨⟨by decide, by decide, by decide, by decide, by decide, by decide⟩,
    (initZ_covariates_C1 stB rand0 0 1 1 none none [[some 1], [some (-1)]]
      [true] true (by decide) (by decide) (by decide) (by decide)
      (by decide)).1 (by decide)⟩,
  ⟨by decide,
    (initZ_covariates_C1 stB rand0 0 1 1 none none
      [[some 1, some 2], [some (-1), some 0]] [true, true] true (by decide)
      (by decide) (by decide) (by decide) (by decide)).2 (by decide)⟩⟩

/-- Claim C10: with covariates supplied, `initZ` and `initW` rewrite the
caller's covariates array in place (modelled by returning the final value of
the argument): with a single covariate column both calls succeed and the
array holds the centered, unit-variance-scaled values in the scale-flagged
columns, the raw values elsewhere, and 0 in place of every NaN entry — not
the original values.  With two or more covariate columns both calls fail
with the line-113/272 TypeError (raised after the mutation of lines
105-109/204-210, which the model surfaces only on the success path). -/
theorem covariates_mutated_C10 (st : InitState) (rand : ℕ → ℕ → Arr)
    (pm pc qv : ℚ) (qE qE2 : Option Arr) (cv : Arr) (flags : List Bool)
    (pre : Bool) (hN : 0 < st.N) (hwf : wellFormed st.N (cols cv) cv)
    (hflags : flags.length = cols cv) (hkK : cols cv ≤ st.K)
    (hrand : wellFormed st.N st.K (rand st.N st.K))
    (hM : st.M = 1) (hD : st.D = [st.N]) :
    (cols cv = 1 →
      (∃ st1 cvOut, initZ st rand pm (.scalar pc) (.str "random") qv qE qE2
          (some cv) (some flags) pre = .ok (st1, some cvOut) ∧
        ∀ i < st.N, ∀ j < cols cv, getE cvOut i j = zeroIfNan (
          if flags.getD j false then
            fdiv (fsub (getE cv i j) (nanmean (col cv j))) (nanstd (col cv j))
          else getE cv i j)) ∧
      (∃ stw cvOutW, initW st rand pm (.scalar pc) (.str "random") qv qE qE2
          (some cv) (some flags) none = .ok (stw, some cvOutW) ∧
        ∀ i < st.N, ∀ j < cols cv, getE cvOutW i j = zeroIfNan (
          if flags.getD j false then
            fdiv (fsub (getE cv i j) (nanmean (col cv j))) (nanstd (col cv j))
          else getE cv i j))) ∧
    (2 ≤ cols cv →
      initZ st rand pm (.scalar pc) (.str "random") qv qE qE2 (some cv)
        (some flags) pre = .error .typeError ∧
      initW st rand pm (.scalar pc) (.str "random") qv qE qE2 (some cv)
        (some flags) none = .error .typeError) := by
  have hwfS : wellFormed st.N (cols cv) (scaleCols flags cv) :=
    wf_scaleCols flags hwf
  have hwfZ : wellFormed st.N (cols cv) (zeroNaN (scaleCols flags cv)) :=
    wf_zeroNaN hwfS
  have hcolsr : cols (rand st.N st.K) = st.K := cols_eq hrand hN
  have hlenz : (zeroNaN (scaleCols flags cv)).length =
      (rand st.N st.K).length := by
    rw [length_zeroNaN, length_scaleCols, hwf.1, hrand.1]
  have hpoint : ∀ i < st.N, ∀ j < cols cv,
      getE (zeroNaN (scaleCols flags cv)) i j = zeroIfNan (
        if flags.getD j false then
          fdiv (fsub (getE cv i j) (nanmean (col cv j))) (nanstd (col cv j))
        else getE cv i j) := by
    intro i hi j hj
    rw [getE_zeroNaN hwfS hi hj, getE_scaleCols flags hwf hi hj]
  constructor
  · intro h1
    have hcond1 : 1 ≤ cols (rand st.N st.K) ∧
        (zeroNaN (scaleCols flags cv)).length = (rand st.N st.K).length := by
      constructor
      · rw [hcolsr]; omega
      · exact hlenz
    have hK0 : ¬ st.K = 0 := by omega
    constructor
    · have heq : initZ st rand pm (.scalar pc) (.str "random") qv qE qE2
          (some cv) (some flags) pre =
          .ok ({ st with nodes := setNode st.nodes "Z" (Node.zNode (st.N, st.K) (constArr st.N st.K (some pm)) (setNanPrefix (List.replicate st.K (PCovE.eye st.N pc)) 1) (.arr (spliceCols (rand st.N st.K) (zeroNaN (scaleCols flags cv)))) (nanCols (constArr st.N st.K (some qv)) 1) qE qE2 (some (List.range 1)) pre) }, some (zeroNaN (scaleCols flags cv))) := by
        simp [initZ, mkQMeanZ, h1, hcond1, hK0]
      exact ⟨_, _, heq, hpoint⟩
    · have heqW : initW st rand pm (.scalar pc) (.str "random") qv qE qE2
          (some cv) (some flags) none =
          .ok ({ st with nodes := setNode st.nodes "W" (Node.multiview st.M [some (Node.wNode (st.N, st.K) (constArr st.N st.K (some pm)) (setNanPrefix (List.replicate st.K (PCovE.eye st.N pc)) 1) (.arr (spliceCols (rand st.N st.K) (zeroNaN (scaleCols flags cv)))) (nanCols (constArr st.N st.K (some qv)) 1) qE qE2 (some (List.range 1)) true)]) }, some (zeroNaN (scaleCols flags cv))) := by
        simp [initW, initW_view, mkQMeanW, mapExcept, hM, hD, h1, hcond1,
          hK0]
      exact ⟨_, _, heqW, hpoint⟩
  · intro h2
    have hcond : cols cv ≤ cols (rand st.N st.K) ∧
        (zeroNaN (scaleCols flags cv)).length = (rand st.N st.K).length := by
      constructor
      · rw [hcolsr]; exact hkK
      · exact hlenz
    have hne1 : ¬ cols cv = 1 := by omega
    constructor
    · simp [initZ, mkQMeanZ, hcond, hne1]
    · simp [initW, initW_view, mkQMeanW, mapExcept, hM, hD, hcond, hne1]

/-- Witness for C10: the success-and-mutation case at the single-column
covariates of the C1 witness, and the TypeError case at a two-column
covariate matrix. -/
theorem covariates_mutated_C10_witness :
    ((0 < stB.N ∧ wellFormed stB.N (cols [[some 1], [some (-1)]])
        [[some 1], [some (-1)]] ∧
      ([true] : List Bool).length = cols [[some 1], [some (-1)]] ∧
      cols [[some 1], [some (-1)]] ≤ stB.K ∧
      wellFormed stB.N stB.K (rand0 stB.N stB.K) ∧ stB.M = 1 ∧
      stB.D = [stB.N] ∧ cols [[some 1], [some (-1)]] = 1) ∧
    ((∃ st1 cvOut, initZ stB rand0 0 (.scalar 1) (.str "random") 1 none none
        (some [[some 1], [some (-1)]]) (some [true]) true =
          .ok (st1, some cvOut) ∧
      ∀ i < stB.N, ∀ j < cols [[some 1], [some (-1)]],
        getE cvOut i j = zeroIfNan (
          if ([true] : List Bool).getD j false then
            fdiv (fsub (getE [[some 1], [some (-1)]] i j)
                (nanmean (col [[some 1], [some (-1)]] j)))
              (nanstd (col [[some 1], [some (-1)]] j))
          else getE [[some 1], [some (-1)]] i j)) ∧
    (∃ stw cvOutW, initW stB rand0 0 (.scalar 1) (.str "random") 1 none none
        (some [[some 1], [some (-1)]]) (some [true]) none =
          .ok (stw, some cvOutW) ∧
      ∀ i < stB.N, ∀ j < cols [[some 1], [some (-1)]],
        getE cvOutW i j = zeroIfNan (
          if ([true] : List Bool).getD j false then
            fdiv (fsub (getE [[some 1], [some (-1)]] i j)
                (nanmean (col [[some 1], [some (-1)]] j)))
              (nanstd (col [[some 1], [some (-1)]] j))
          else getE [[some 1], [some (-1)]] i j)))) ∧
    ((2 ≤ cols [[some 1, some 2], [some (-1), some 0]]) ∧
      (initZ stB rand0 0 (.scalar 1) (.str "random") 1 none none
        (some [[some 1, some 2], [some (-1), some 0]]) (some [true, true])
        true = .error .typeError ∧
      initW stB rand0 0 (.scalar 1) (.str "random") 1 none none
        (some [[some 1, some 2], [some (-1), some 0]]) (some [true, true])
        none = .error .typeError)) :=
  ⟨⟨⟨by decide, by decide, by decide, by decide, by decide, by decide,
      by decide, by decide⟩,
    (covariates_mutated_C10 stB rand0 0 1 1 none none [[some 1], [some (-1)]]
      [true] true (by decide) (by decide) (by decide) (by decide) (by decide)
      (by decide) (by decide)).1 (by decide)⟩,
  ⟨by decide,
    (covariates_mutated_C10 stB rand0 0 1 1 none none
      [[some 1, some 2], [some (-1), some 0]] [true, true] true (by decide)
      (by decide) (by decide) (by decide) (by decide) (by decide)
      (by decide)).2 (by decide)⟩⟩

/-- Two gaussian views, two samples, one feature each, one factor: the state
on which the pca-mode shape claim fails. -/
def stC9 : InitState :=
  { N := 2, K := 1, M := 2, D := [1, 1], lik := ["gaussian", "gaussian"],
    data := [[[some 0], [some 0]], [[some 0], [some 0]]], nodes := [] }

/-- Claim C9 counterexample: with M = 2 views of one feature each, N = 2 and
K = 1, `initZ` in pca mode completes but registers a posterior mean of shape
(M*N, K) = (4, 1), not (N, K) = (2, 1) — the pca fit runs on the transposed
row-concatenation of the views. -/
theorem initZ_pca_shape_counter_C9 :
    (initZ stC9 rand0 0 (.scalar 1) (.str "pca") 1 none none none none
        true).map (fun p => (List.lookup "Z" p.1.nodes).map qmeanShapeOf) =
      .ok (some (some (4, 1))) ∧
    ((4 : ℕ), (1 : ℕ)) ≠ (stC9.N, stC9.K) := by
  constructor
  · rfl
  · decide

/-- Claim C9 (amended): orthogonal mode produces a posterior mean of shape
(N, K) for Z — and (D[m], K) for W — only when K is at most N (resp. D[m]);
for K greater than N the underlying PCA fit fails and the call errors.  PCA
mode fits the transposed row-concatenation of all views' data (requiring
every view to have the same feature count) and produces shape (M*N, K) for
Z, which equals (N, K) only when M = 1. -/
theorem pca_orthogonal_shapes_C9 (st : InitState) (rand : ℕ → ℕ → Arr)
    (pm pc qv : ℚ) (qE qE2 : Option Arr) (pre : Bool) :
    (0 < st.N → st.K ≤ st.N → st.K ≤ 9999 →
      wellFormed st.N 9999 (rand st.N 9999) →
      (initZ st rand pm (.scalar pc) (.str "orthogonal") qv qE qE2 none none
          pre).map (fun p => (List.lookup "Z" p.1.nodes).map qmeanShapeOf) =
        .ok (some (some (st.N, st.K)))) ∧
    (0 < st.N → st.N < st.K →
      wellFormed st.N 9999 (rand st.N 9999) →
      initZ st rand pm (.scalar pc) (.str "orthogonal") qv qE qE2 none none
        pre = .error .valueError) ∧
    (∀ d0, 0 < st.N → 0 < st.M → 0 < d0 → st.data.length = st.M →
      (∀ a ∈ st.data, wellFormed st.N d0 a) → st.K ≤ d0 →
      st.K ≤ st.M * st.N →
      (initZ st rand pm (.scalar pc) (.str "pca") qv qE qE2 none none
          pre).map (fun p => (List.lookup "Z" p.1.nodes).map qmeanShapeOf) =
        .ok (some (some (st.M * st.N, st.K)))) ∧
    (∀ d, st.M = 1 → st.D = [d] → 0 < d → st.K ≤ d → st.K ≤ 9999 →
      wellFormed d 9999 (rand d 9999) →
      (initW st rand pm (.scalar pc) (.str "orthogonal") qv qE qE2 none none
          none).map (fun p => (List.lookup "W" p.1.nodes).map
          Node.viewQmeanShapes) = .ok (some [some (d, st.K)])) := by
  refine ⟨?_, ?_, ?_, ?_⟩
  · intro hN hKN hK9 hr9
    have hc9 : cols (rand st.N 9999) = 9999 := cols_eq hr9 hN
    have hlt : (transposeArr (rand st.N 9999)).length = 9999 := by
      rw [length_transposeArr, hc9]
    have hct : cols (transposeArr (rand st.N 9999)) = st.N := by
      rw [cols_transposeArr (by rw [hc9]; omega), hr9.1]
    have hle : st.K ≤ min (transposeArr (rand st.N 9999)).length
        (cols (transposeArr (rand st.N 9999))) := by
      rw [hlt, hct]; omega
    have hpca : pcaFitT st.K (transposeArr (rand st.N 9999)) =
        .ok (constArr st.N st.K (some 0)) := by
      simp only [pcaFitT]
      rw [if_pos hle, hct]
    simp [initZ, mkQMeanZ, hpca, Except.map, lookup_setNode_self,
      qmeanShapeOf, shapeOf_constArr hN]
  · intro hN hNK hr9
    have hc9 : cols (rand st.N 9999) = 9999 := cols_eq hr9 hN
    have hlt : (transposeArr (rand st.N 9999)).length = 9999 := by
      rw [length_transposeArr, hc9]
    have hct : cols (transposeArr (rand st.N 9999)) = st.N := by
      rw [cols_transposeArr (by rw [hc9]; omega), hr9.1]
    have hnle : ¬ st.K ≤ min (transposeArr (rand st.N 9999)).length
        (cols (transposeArr (rand st.N 9999))) := by
      rw [hlt, hct]; omega
    have hpca : pcaFitT st.K (transposeArr (rand st.N 9999)) =
        .error .valueError := by
      simp only [pcaFitT]
      rw [if_neg hnle]
    simp [initZ, mkQMeanZ, hpca]
  · intro d0 hN hM hd0 hdl hdw hKd hKMN
    have hne : st.data ≠ [] := by
      intro h
      rw [h] at hdl
      simp at hdl
      omega
    have hcolsd : ∀ b ∈ st.data, cols b = d0 :=
      fun b hb => cols_eq (hdw b hb) hN
    have hcat : concatRows st.data = .ok st.data.flatten :=
      concatRows_ok hne hcolsd
    have hflen : st.data.flatten.length = st.M * st.N := by
      rw [flatten_length_const st.data (fun a ha => (hdw a ha).1), hdl]
    have hcolsf : cols st.data.flatten = d0 := by
      obtain ⟨a, rest, hdata⟩ : ∃ a rest, st.data = a :: rest := by
        cases h : st.data with
        | nil => exact absurd h hne
        | cons a rest => exact ⟨a, rest, rfl⟩
      rw [hdata]
      exact cols_flatten hN (hdata ▸ hdw)
    have hlt : (transposeArr st.data.flatten).length = d0 := by
      rw [length_transposeArr, hcolsf]
    have hct : cols (transposeArr st.data.flatten) = st.M * st.N := by
      rw [cols_transposeArr (by rw [hcolsf]; omega), hflen]
    have hle : st.K ≤ min (transposeArr st.data.flatten).length
        (cols (transposeArr st.data.flatten)) := by
      rw [hlt, hct]; omega
    have hpca : pcaFitT st.K (transposeArr st.data.flatten) =
        .ok (constArr (st.M * st.N) st.K (some 0)) := by
      simp only [pcaFitT]
      rw [if_pos hle, hct]
    have hMN : 0 < st.M * st.N := Nat.mul_pos hM hN
    simp [initZ, mkQMeanZ, hcat, hpca, Except.map, lookup_setNode_self,
      qmeanShapeOf, shapeOf_constArr hMN]
  · intro d hM hD hd hKd hK9 hr9
    have hc9 : cols (rand d 9999) = 9999 := cols_eq hr9 hd
    have hlt : (transposeArr (rand d 9999)).length = 9999 := by
      rw [length_transposeArr, hc9]
    have hct : cols (transposeArr (rand d 9999)) = d := by
      rw [cols_transposeArr (by rw [hc9]; omega), hr9.1]
    have hle : st.K ≤ min (transposeArr (rand d 9999)).length
        (cols (transposeArr (rand d 9999))) := by
      rw [hlt, hct]; omega
    have hpca : pcaFitT st.K (transposeArr (rand d 9999)) =
        .ok (constArr d st.K (some 0)) := by
      simp only [pcaFitT]
      rw [if_pos hle, hct]
    simp [initW, initW_view, mkQMeanW, mapExcept, hM, hD, hpca, Except.map,
      lookup_setNode_self, Node.viewQmeanShapes, qmeanShapeOf,
      shapeOf_constArr hd]

/-- A state with more factors than samples, on which the orthogonal-mode
PCA fit must fail. -/
def stC9b : InitState :=
  { N := 1, K := 2, M := 1, D := [1], lik := ["gaussian"],
    data := [[[some 0]]], nodes := [] }

/-- Witness for C9: the four amended cases instantiated at concrete states. -/
theorem pca_orthogonal_shapes_C9_witness :
    ((0 < stB.N ∧ stB.K ≤ stB.N ∧ stB.K ≤ 9999 ∧
        wellFormed stB.N 9999 (rand0 stB.N 9999)) ∧
      (initZ stB rand0 0 (.scalar 1) (.str "orthogonal") 1 none none none
          none true).map (fun p => (List.lookup "Z" p.1.nodes).map
          qmeanShapeOf) = .ok (some (some (stB.N, stB.K)))) ∧
    ((0 < stC9b.N ∧ stC9b.N < stC9b.K ∧
        wellFormed stC9b.N 9999 (rand0 stC9b.N 9999)) ∧
      initZ stC9b rand0 0 (.scalar 1) (.str "orthogonal") 1 none none none
        none true = .error .valueError) ∧
    ((0 < stC9.N ∧ 0 < stC9.M ∧ (0 : ℕ) < 1 ∧ stC9.data.length = stC9.M ∧
        (∀ a ∈ stC9.data, wellFormed stC9.N 1 a) ∧ stC9.K ≤ 1 ∧
        stC9.K ≤ stC9.M * stC9.N) ∧
      (initZ stC9 rand0 0 (.scalar 1) (.str "pca") 1 none none none none
          true).map (fun p => (List.lookup "Z" p.1.nodes).map qmeanShapeOf) =
        .ok (some (some (stC9.M * stC9.N, stC9.K)))) ∧
    ((stB.M = 1 ∧ stB.D = [2] ∧ (0 : ℕ) < 2 ∧ stB.K ≤ 2 ∧ stB.K ≤ 9999 ∧
        wellFormed 2 9999 (rand0 2 9999)) ∧
      (initW stB rand0 0 (.scalar 1) (.str "orthogonal") 1 none none none
          none none).map (fun p => (List.lookup "W" p.1.nodes).map
          Node.viewQmeanShapes) = .ok (some [some (2, stB.K)])) :=
  ⟨⟨⟨by decide, by decide, by decide, wf_constArr stB.N 9999 (some 0)⟩,
      (pca_orthogonal_shapes_C9 stB rand0 0 1 1 none none true).1
        (by decide) (by decide) (by decide) (wf_constArr stB.N 9999 (some 0))⟩,
    ⟨⟨by decide, by decide, wf_constArr stC9b.N 9999 (some 0)⟩,
      (pca_orthogonal_shapes_C9 stC9b rand0 0 1 1 none none true).2.1
        (by decide) (by decide) (wf_constArr stC9b.N 9999 (some 0))⟩,
    ⟨⟨by decide, by decide, by decide, by decide, by decide, by decide,
        by decide⟩,
      (pca_orthogonal_shapes_C9 stC9 rand0 0 1 1 none none true).2.2.1 1
        (by decide) (by decide) (by decide) (by decide) (by decide)
        (by decide) (by decide)⟩,
    ⟨⟨by decide, by decide, by decide, by decide, by decide,
        wf_constArr 2 9999 (some 0)⟩,
      (pca_orthogonal_shapes_C9 stB rand0 0 1 1 none none true).2.2.2 2
        (by decide) (by decide) (by decide) (by decide) (by decide)
        (wf_constArr 2 9999 (some 0))⟩⟩
